import Mathlib

/-!
Verification of the reddyt backend core against its specification.

The development shallowly embeds the two CORE components of the repository:

* the run lifecycle state machine of `src/core/backend/src/models/runs.rs`
  (`RunState`, `Run`, `RunState::next_state`, `Run::update_state`,
  `Run::set_error`), and
* the authentication gateway of
  `src/core/backend/src/utils/extractors/authentication.rs`
  (`try_authenticate`, `try_authenticate_basic`, `try_authenticate_bearer`,
  `get_jwt_secret`).

Database access (sqlx), the actix request plumbing and the third-party JWT /
base64 / rand crates are external collaborators: database queries are dropped
from the pure model (the Rust methods compute the new entity value and then
persist it; we keep the computation), the clock and the entropy source are
passed as explicit arguments, and the token codec — whose implementation
lives in the `jsonwebtoken` crate, outside this repository — is modelled
from the specification's Token Codec contract (§4.3).
-/

namespace Reddyt

/-! ## Run lifecycle — `src/core/backend/src/models/runs.rs` -/

/-- Current processing state of a run.  Mirrors `enum RunState`
(constructors in source order: `Error` first, then the pipeline stages). -/
inductive RunState where
  | error
  | idling
  | generatingQuestion
  | generatingAnswer
  | renderingVoice
  | renderingSubtitles
  | downloadingBackground
  | composingVideo
  | uploading
  | done
deriving DecidableEq, Repr

/-- Errors of `Run` operations.  Mirrors `enum RunError`; the `QueryError`
and `UploadError` variants wrap sqlx/database failures and are outside the
pure model, so only `FrozenState` remains. -/
inductive RunError where
  | frozenState
deriving DecidableEq, Repr

/-- Mirrors `struct Run`.  `run_date` is the `DateTime<Utc>` field modelled
as a unix timestamp; `id` and `profile_id` are the `i32` keys. -/
structure Run where
  id : Int
  profile_id : Int
  run_date : Int
  current_state : RunState
  error : Option String
deriving DecidableEq, Repr

/-- Mirrors `RunState::next_state` (runs.rs lines 124-144): `Error` maps to
itself, each pipeline stage maps to its successor, and `Uploading` and
`Done` both map to `Done`.  The Rust method mutates in place and returns
`&mut Self`; the model returns the new value. -/
def RunState.next_state : RunState → RunState
  | .error => .error
  | .idling => .generatingQuestion
  | .generatingQuestion => .generatingAnswer
  | .generatingAnswer => .renderingVoice
  | .renderingVoice => .renderingSubtitles
  | .renderingSubtitles => .downloadingBackground
  | .downloadingBackground => .composingVideo
  | .composingVideo => .uploading
  | .uploading => .done
  | .done => .done

/-- Mirrors `Run::update_state` (runs.rs lines 297-321) with the database
`UPDATE` dropped: reject only the `Error` state with `FrozenState`, then
step `current_state` through `RunState::next_state`. -/
def Run.update_state (r : Run) : Except RunError Run :=
  if r.current_state = RunState.error then
    Except.error RunError.frozenState
  else
    Except.ok { r with current_state := r.current_state.next_state }

/-- Mirrors `Run::set_error` (runs.rs lines 336-359) with the database
`UPDATE` dropped: reject the `Error` state with `FrozenState`, then set the
`error` field to the message.  Note that the Rust method sets only the
`error` column and `self.error`; it never calls `RunState::set_error`, so
`current_state` is left untouched. -/
def Run.set_error (r : Run) (message : String) : Except RunError Run :=
  if r.current_state = RunState.error then
    Except.error RunError.frozenState
  else
    Except.ok { r with error := some message }

/-- A lifecycle operation a worker may attempt on a run: an `advance`
(`Run::update_state`) or a `fail` with a message (`Run::set_error`). -/
inductive RunOp where
  | advance
  | fail (message : String)
deriving DecidableEq, Repr

/-- Apply one lifecycle operation; a rejected operation (the Rust method
returns `Err` before mutating `self`) leaves the run unchanged. -/
def applyRunOp (r : Run) : RunOp → Run
  | RunOp.advance =>
      match r.update_state with
      | Except.ok r' => r'
      | Except.error _ => r
  | RunOp.fail m =>
      match r.set_error m with
      | Except.ok r' => r'
      | Except.error _ => r

/-- The ordered stage table of spec §3, written from the specification's
words (the ordered enum `Idling, …, Uploading, Done`), used to compare the
code's successor function against the spec's table. -/
def specStateOrder : List RunState :=
  [RunState.idling, RunState.generatingQuestion, RunState.generatingAnswer,
   RunState.renderingVoice, RunState.renderingSubtitles,
   RunState.downloadingBackground, RunState.composingVideo,
   RunState.uploading, RunState.done]

/-- Successor in an ordered list: the element immediately after `s`. -/
def nextInOrder : List RunState → RunState → Option RunState
  | a :: b :: rest, s => if a = s then some b else nextInOrder (b :: rest) s
  | _, _ => none

/-- The unique fixed successor of a state per the spec §3 ordered table. -/
def specSuccessor (s : RunState) : Option RunState :=
  nextInOrder specStateOrder s

deriving instance DecidableEq for Except

/-! ## Authentication gateway —
`src/core/backend/src/utils/extractors/authentication.rs`

The request's `Authorization` header (after `to_str`) and the
`authentication` cookie value are passed as `Option String` arguments; the
clock (`Utc::now().timestamp()`) is an `Int` argument and the signing
secret obtained from `get_jwt_secret` a `String` argument (the entropy
failure of `get_jwt_secret` is modelled separately, see `getJwtSecret`). -/

/-- How long until the authentication session expires
(`AUTH_EXPIRATION_HOURS`, authentication.rs line 27). -/
def AUTH_EXPIRATION_HOURS : Int := 3

/-- The TTL of an issued token in seconds (`Duration::hours(3)`). -/
def authTtlSecs : Int := AUTH_EXPIRATION_HOURS * 3600

/-- Mirrors `enum OptionalAuthError` (authentication.rs lines 33-48). -/
inductive OptionalAuthError where
  | missingContext
  | jwtSecret
  | jwtExpiration
  | jwtEncoding
  | invalidCast
deriving DecidableEq, Repr

/-- Mirrors `struct OptionalAuthClaims` (authentication.rs lines 55-58):
the claims the application JWT consists of; `exp` is the `usize` unix
timestamp. -/
structure OptionalAuthClaims where
  email : String
  exp : Nat
deriving DecidableEq, Repr

/-- Mirrors `struct OptionalAuth` (authentication.rs lines 78-80): the
extractor's result, `token = none` meaning unauthenticated. -/
structure OptionalAuth where
  token : Option String
deriving DecidableEq, Repr

/-- Mirrors `OptionalAuth::unauthenticated`. -/
def OptionalAuth.unauthenticated : OptionalAuth := { token := none }

/-- Mirrors `OptionalAuth::authenticated`. -/
def OptionalAuth.authenticated (token : String) : OptionalAuth :=
  { token := some token }

/-- Mirrors `OptionalAuth::is_authenticated`. -/
def OptionalAuth.is_authenticated (a : OptionalAuth) : Bool :=
  a.token.isSome

/-! ### Token codec

Modelled from the spec: the codec implementation is the `jsonwebtoken`
crate, outside this repository's sources, so it is modelled from §4.3 of
the specification: `issue` builds `SessionClaims{email, expiresAt = now +
ttl}` and signs them with a symmetric MAC keyed by the process secret
(failing with a clock error when `now + ttl` overflows the timestamp
range), and `verify` checks the signature and `expiresAt > now`,
collapsing every structural, signature or expiry failure to `Invalid`
(`none`).  A signed token is its claims together with the MAC tag; the
opaque string form used on the wire is produced by `jwtEncode` and read
back by `jwtParse`. -/

/-- A polynomial fold of a character list into a `Nat`, the building block
of the modelled MAC. -/
def chainHash (h : Nat) (cs : List Char) : Nat :=
  cs.foldl (fun a c => a * 131 + c.toNat + 1) h

/-- Modelled from the spec: the symmetric MAC (HMAC-SHA256 equivalent) of
the claims under the signing secret.  Verification only ever recomputes
and compares the tag, so any concrete keyed function represents it. -/
def macHash (secret email : String) (exp : Nat) : Nat :=
  chainHash (chainHash 7 secret.data) email.data * 1000003 + exp

/-- A signed token: claims plus MAC tag. -/
structure Jwt where
  claims : OptionalAuthClaims
  mac : Nat
deriving DecidableEq, Repr

/-- Largest timestamp `chrono`'s checked addition can return (modelled as
the `i64` timestamp range of spec §4.3's "overflows the timestamp
range"). -/
def tsMax : Int := 2 ^ 63 - 1

/-- Smallest representable timestamp. -/
def tsMin : Int := -(2 ^ 63)

/-- Mirrors `Utc::now().checked_add_signed(duration)` on timestamps:
`none` when the sum leaves the representable range. -/
def checkedAddTs (now duration : Int) : Option Int :=
  if tsMin ≤ now + duration ∧ now + duration ≤ tsMax then
    some (now + duration)
  else
    none

/-- The Basic-branch token issue (authentication.rs lines 239-263): the
expiry is `now` plus `AUTH_EXPIRATION_HOURS`, `checked_add_signed` failure
becomes `JwtExpiration`, the failing `i64 -> usize` cast of a negative
expiry becomes `InvalidCast`, and the claims carry the admin email. -/
def issueJwt (secret email : String) (now : Int) : Except OptionalAuthError Jwt :=
  match checkedAddTs now authTtlSecs with
  | none => Except.error OptionalAuthError.jwtExpiration
  | some expTs =>
      if expTs < 0 then
        Except.error OptionalAuthError.invalidCast
      else
        Except.ok
          { claims := { email := email, exp := expTs.toNat }
            mac := macHash secret email expTs.toNat }

/-- Modelled from the spec: `verify(token, now)` of §4.3 — recompute and
check the MAC, check `expiresAt > now`, and collapse any failure to
`Invalid` (`none`). -/
def verifyJwt (secret : String) (t : Jwt) (now : Int) : Option OptionalAuthClaims :=
  if t.mac = macHash secret t.claims.email t.claims.exp ∧ now < (t.claims.exp : Int) then
    some t.claims
  else
    none

/-- Leading decimal digits of a character list as a number, with the rest;
`none` when there is no leading digit. -/
def parseNatCh (cs : List Char) : Option (Nat × List Char) :=
  match cs.takeWhile Char.isDigit with
  | [] => none
  | ds => some (ds.foldl (fun a c => a * 10 + (c.toNat - 48)) 0,
                cs.dropWhile Char.isDigit)

/-- The opaque wire form of a signed token (length-prefixed email, expiry,
MAC tag), standing in for the compact JWT encoding. -/
def jwtEncode (t : Jwt) : String :=
  toString t.claims.email.length ++ ":" ++ t.claims.email ++ ":"
    ++ toString t.claims.exp ++ ":" ++ toString t.mac

/-- Structural decoding of the wire form back into a signed token; any
malformed input yields `none`. -/
def jwtParse (s : String) : Option Jwt :=
  match parseNatCh s.data with
  | some (len, ':' :: r1) =>
      if len ≤ r1.length then
        match r1.drop len with
        | ':' :: r2 =>
            match parseNatCh r2 with
            | some (expVal, ':' :: r3) =>
                match parseNatCh r3 with
                | some (macVal, []) =>
                    some { claims := { email := String.mk (r1.take len)
                                       exp := expVal }
                           mac := macVal }
                | _ => none
            | _ => none
        | _ => none
      else none
  | _ => none

/-! ### Basic branch helpers -/

/-- The six-bit value of a standard base64 alphabet symbol
(RFC 4648 §4, the alphabet of the `base64` crate's `BASE64_STANDARD`). -/
def b64Val (c : Char) : Option Nat :=
  if 'A' ≤ c ∧ c ≤ 'Z' then some (c.toNat - 65)
  else if 'a' ≤ c ∧ c ≤ 'z' then some (c.toNat - 97 + 26)
  else if '0' ≤ c ∧ c ≤ '9' then some (c.toNat - 48 + 52)
  else if c = '+' then some 62
  else if c = '/' then some 63
  else none

/-- Standard base64 decoding of four-symbol blocks with canonical `=`
padding on the final block only, rejecting invalid symbols, misplaced
padding, non-canonical trailing bits and lengths not divisible by four —
the behaviour of `BASE64_STANDARD.decode` (authentication.rs line 215),
which lives in the external `base64` crate. -/
def base64DecodeGo : List Char → Option (List Nat)
  | [] => some []
  | a :: b :: c :: d :: rest =>
      match b64Val a, b64Val b with
      | some va, some vb =>
          if c = '=' then
            if d = '=' ∧ rest = [] then
              if vb % 16 = 0 then some [va * 4 + vb / 16] else none
            else none
          else
            match b64Val c with
            | some vc =>
                if d = '=' then
                  if rest = [] then
                    if vc % 4 = 0 then
                      some [va * 4 + vb / 16, (vb % 16) * 16 + vc / 4]
                    else none
                  else none
                else
                  match b64Val d with
                  | some vd =>
                      (base64DecodeGo rest).map
                        (fun tail =>
                          (va * 4 + vb / 16) :: ((vb % 16) * 16 + vc / 4)
                            :: ((vc % 4) * 64 + vd) :: tail)
                  | none => none
            | none => none
      | _, _ => none
  | _ => none

/-- Base64-decode a string to bytes (see `base64DecodeGo`). -/
def base64Decode (s : String) : Option (List Nat) :=
  base64DecodeGo s.data

/-- Whether a byte is a UTF-8 continuation byte. -/
def isUtf8Cont (b : Nat) : Bool :=
  0x80 ≤ b && b ≤ 0xBF

/-- UTF-8 decoding of a byte list into characters, rejecting truncated
sequences, stray continuation bytes, overlong encodings, surrogates and
out-of-range code points — the behaviour of `String::from_utf8`
(authentication.rs line 222), which lives in the Rust standard library. -/
def utf8DecodeGo : List Nat → Option (List Char)
  | [] => some []
  | b :: rest =>
      if b < 0x80 then
        (utf8DecodeGo rest).map (fun cs => Char.ofNat b :: cs)
      else if 0xC2 ≤ b ∧ b ≤ 0xDF then
        match rest with
        | c1 :: rest2 =>
            if isUtf8Cont c1 then
              (utf8DecodeGo rest2).map
                (fun cs => Char.ofNat ((b - 0xC0) * 64 + (c1 - 0x80)) :: cs)
            else none
        | [] => none
      else if 0xE0 ≤ b ∧ b ≤ 0xEF then
        match rest with
        | c1 :: c2 :: rest2 =>
            if (if b = 0xE0 then 0xA0 ≤ c1 && c1 ≤ 0xBF
                else if b = 0xED then 0x80 ≤ c1 && c1 ≤ 0x9F
                else isUtf8Cont c1) && isUtf8Cont c2 then
              (utf8DecodeGo rest2).map
                (fun cs =>
                  Char.ofNat ((b - 0xE0) * 4096 + (c1 - 0x80) * 64 + (c2 - 0x80)) :: cs)
            else none
        | _ => none
      else if 0xF0 ≤ b ∧ b ≤ 0xF4 then
        match rest with
        | c1 :: c2 :: c3 :: rest2 =>
            if (if b = 0xF0 then 0x90 ≤ c1 && c1 ≤ 0xBF
                else if b = 0xF4 then 0x80 ≤ c1 && c1 ≤ 0x8F
                else isUtf8Cont c1) && isUtf8Cont c2 && isUtf8Cont c3 then
              (utf8DecodeGo rest2).map
                (fun cs =>
                  Char.ofNat ((b - 0xF0) * 262144 + (c1 - 0x80) * 4096
                    + (c2 - 0x80) * 64 + (c3 - 0x80)) :: cs)
            else none
        | _ => none
      else none

/-- UTF-8 decode a byte list into a string (see `utf8DecodeGo`). -/
def utf8Decode (bs : List Nat) : Option String :=
  (utf8DecodeGo bs).map String.mk

/-- Split on the first occurrence of a separator, mirroring
`str::split_once` (authentication.rs line 230): `none` when the separator
does not occur. -/
def splitOnceGo (sep : Char) : List Char → Option (List Char × List Char)
  | [] => none
  | c :: rest =>
      if c = sep then some ([], rest)
      else (splitOnceGo sep rest).map (fun p => (c :: p.1, p.2))

/-- String form of `splitOnceGo`. -/
def splitOnce (s : String) (sep : Char) : Option (String × String) :=
  (splitOnceGo sep s.data).map (fun p => (String.mk p.1, String.mk p.2))

/-- The credential comparison of authentication.rs lines 235-237 — the
spec §4.2 `verifyBasic`: exact equality of both fields (Lean string
equality is character-list equality, which by injectivity of UTF-8
encoding coincides with Rust's byte-for-byte `str` equality). -/
def verifyBasic (email password adminEmail adminPassword : String) : Bool :=
  email == adminEmail && password == adminPassword

/-- Removes a prefix, mirroring `str::strip_prefix`
(authentication.rs lines 176 and 181). -/
def stripPfxGo : List Char → List Char → Option (List Char)
  | [], rest => some rest
  | _ :: _, [] => none
  | p :: ps, c :: cs => if p = c then stripPfxGo ps cs else none

/-- String form of `stripPfxGo`. -/
def stripPfx (p s : String) : Option String :=
  (stripPfxGo p.data s.data).map String.mk

/-! ### The gateway branches -/

/-- Mirrors `try_authenticate_basic` (authentication.rs lines 207-266):
base64-decode the credentials, read them as UTF-8, split on the first
colon, returning unauthenticated on any of these failures; compare with
the admin identity, returning unauthenticated on mismatch; otherwise issue
a JWT (propagating the issue errors) and return it. -/
def tryAuthenticateBasic (userCredentials adminEmail adminPassword secret : String)
    (now : Int) : Except OptionalAuthError OptionalAuth :=
  match base64Decode userCredentials with
  | none => Except.ok OptionalAuth.unauthenticated
  | some decodedBytes =>
      match utf8Decode decodedBytes with
      | none => Except.ok OptionalAuth.unauthenticated
      | some decodedCredentials =>
          match splitOnce decodedCredentials ':' with
          | none => Except.ok OptionalAuth.unauthenticated
          | some (emailCred, passwordCred) =>
              -- the Rust code early-returns on `email_cred != admin_email
              -- || password_cred != admin_password`; `verifyBasic` is that
              -- comparison, negated.
              if verifyBasic emailCred passwordCred adminEmail adminPassword then
                match issueJwt secret adminEmail now with
                | Except.error e => Except.error e
                | Except.ok t =>
                    Except.ok (OptionalAuth.authenticated (jwtEncode t))
              else
                Except.ok OptionalAuth.unauthenticated

/-- Mirrors `try_authenticate_bearer` (authentication.rs lines 271-293):
decode and validate the token (structure, signature and expiry — any
failure yields unauthenticated), reject a claims email differing from the
admin email, and otherwise pass the original token through unchanged. -/
def tryAuthenticateBearer (token adminEmail secret : String)
    (now : Int) : Except OptionalAuthError OptionalAuth :=
  match jwtParse token with
  | none => Except.ok OptionalAuth.unauthenticated
  | some t =>
      match verifyJwt secret t now with
      | none => Except.ok OptionalAuth.unauthenticated
      | some claims =>
          if claims.email ≠ adminEmail then
            Except.ok OptionalAuth.unauthenticated
          else
            Except.ok (OptionalAuth.authenticated token)

/-- Mirrors `try_authenticate` (authentication.rs lines 154-202) past the
app-context lookup: a header stripped of `"Basic "` dispatches to the
Basic branch; failing that, a header stripped of `"Bearer "` dispatches to
the Bearer branch; failing that, a present cookie value dispatches to the
Bearer branch; otherwise the request is unauthenticated.  `header` is the
`Authorization` header after `to_str` (`none` when absent or not a valid
header string), `cookie` the value of the `authentication` cookie. -/
def tryAuthenticate (header cookie : Option String)
    (adminEmail adminPassword secret : String) (now : Int) :
    Except OptionalAuthError OptionalAuth :=
  match header.bind (stripPfx "Basic ") with
  | some credentials =>
      tryAuthenticateBasic credentials adminEmail adminPassword secret now
  | none =>
      match header.bind (stripPfx "Bearer ") with
      | some credentials => tryAuthenticateBearer credentials adminEmail secret now
      | none =>
          match cookie with
          | some credentials => tryAuthenticateBearer credentials adminEmail secret now
          | none => Except.ok OptionalAuth.unauthenticated

/-! ### Secret manager — `get_jwt_secret` (authentication.rs lines 135-147) -/

/-- Mirrors `rand::rand_core::OsError`: the entropy source failed. -/
inductive OsRngError where
  | entropyFailure
deriving DecidableEq, Repr

/-- The `Alphanumeric` distribution's alphabet (the `rand` crate:
uppercase, lowercase, digits). -/
def alphanumAlphabet : List Char :=
  "ABCDEFGHIJKLMNOPQRSTUVWXYZabcdefghijklmnopqrstuvwxyz0123456789".data

/-- Mirrors `Alphanumeric.sample_string(&mut rng, len)` with the random
source modelled as a stream of naturals: each draw indexes the 62-symbol
alphabet. -/
def sampleAlphanumeric (rng : Nat → Nat) (len : Nat) : String :=
  String.mk ((List.range len).map (fun i => alphanumAlphabet.getD (rng i % 62) 'A'))

/-- Mirrors `get_jwt_secret`: build a fresh rng from the OS entropy source
first — propagating its failure with `?` — and only then consult the
`OnceLock` cache, generating the 32-character secret when the cache is
empty.  `entropy` is the outcome of `StdRng::try_from_rng(&mut OsRng)`
(`none` = the entropy source failed), `cache` the `OnceLock` content; the
call returns its result together with the new cache content. -/
def getJwtSecret (entropy : Option (Nat → Nat)) (cache : Option String) :
    Except OsRngError String × Option String :=
  match entropy with
  | none => (Except.error OsRngError.entropyFailure, cache)
  | some rng =>
      match cache with
      | some s => (Except.ok s, some s)
      | none =>
          (Except.ok (sampleAlphanumeric rng 32), some (sampleAlphanumeric rng 32))

/-! ## Theorems about the run lifecycle -/

/-- C1: the claim says `fail` on a non-Error run returns a run with
`currentState = Error` and `error = Some(message)`.  The code disagrees:
`Run::set_error` only stores the message and never touches
`current_state` (the `RunState::set_error` helper is never called), so on
an `Idling` run `fail` succeeds with the state still `Idling`; only the
Error-state half of the claim (rejection with `FrozenStateError`) holds. -/
theorem set_error_leaves_state_unchanged :
    Run.set_error
        { id := 1, profile_id := 1, run_date := 0,
          current_state := RunState.idling, error := none } "boom"
      = Except.ok
        { id := 1, profile_id := 1, run_date := 0,
          current_state := RunState.idling, error := some "boom" }
    ∧ RunState.idling ≠ RunState.error
    ∧ Run.set_error
        { id := 1, profile_id := 1, run_date := 0,
          current_state := RunState.error, error := none } "x"
      = Except.error RunError.frozenState := by
  decide

/-- C2: the claim says `advance` on an Error run fails with
`FrozenStateError` (true), eight advances from `Idling` reach `Done`
(true), and a further `advance` on the `Done` run also fails with
`FrozenStateError`.  The code disagrees on the last point:
`Run::update_state` tests only for `Error`, so advancing a `Done` run
succeeds and silently leaves the state at `Done` — despite the method's
own documentation promising an error on `DONE` as well. -/
theorem update_state_done_not_frozen :
    Run.update_state
        { id := 1, profile_id := 1, run_date := 0,
          current_state := RunState.error, error := none }
      = Except.error RunError.frozenState
    ∧ (List.foldl applyRunOp
        { id := 1, profile_id := 1, run_date := 0,
          current_state := RunState.idling, error := none }
        (List.replicate 8 RunOp.advance)).current_state = RunState.done
    ∧ Run.update_state
        { id := 1, profile_id := 1, run_date := 0,
          current_state := RunState.done, error := none }
      = Except.ok
        { id := 1, profile_id := 1, run_date := 0,
          current_state := RunState.done, error := none } := by
  decide

/-- C3: `Done` and `Error` are absorbing — starting from a run in either
state, no sequence of `advance` (`Run::update_state`) and `fail`
(`Run::set_error`) operations ever changes `current_state`: on `Error`
both operations are rejected outright, and on `Done` an `advance` maps
`Done` back to `Done` while a `fail` only stores the message. -/
theorem absorbing_states_stable (s : RunState)
    (hs : s = RunState.done ∨ s = RunState.error) (r : Run)
    (hr : r.current_state = s) (ops : List RunOp) :
    (List.foldl applyRunOp r ops).current_state = s := by
  induction ops generalizing r with
  | nil => simpa using hr
  | cons op rest ih =>
      simp only [List.foldl_cons]
      apply ih
      rcases hs with h | h <;> subst h <;> cases op <;>
        simp [applyRunOp, Run.update_state, Run.set_error,
              RunState.next_state, hr]

/-- Witness for C3 at a concrete input: a `Done` run stays `Done` under
an advance followed by a fail. -/
theorem absorbing_states_stable_witness :
    (List.foldl applyRunOp
      { id := 0, profile_id := 0, run_date := 0,
        current_state := RunState.done, error := none }
      [RunOp.advance, RunOp.fail "x"]).current_state = RunState.done :=
  absorbing_states_stable RunState.done (Or.inl rfl) _ rfl _

/-- C4: on every non-terminal state, `advance` (`Run::update_state`)
succeeds and moves `current_state` to exactly the successor given by the
spec §3 ordered table (`specSuccessor`), leaving every other field
unchanged; in particular `Uploading`'s successor is `Done`. -/
theorem update_state_follows_spec_table (r : Run)
    (hd : r.current_state ≠ RunState.done)
    (he : r.current_state ≠ RunState.error) :
    ∃ s', specSuccessor r.current_state = some s'
      ∧ r.update_state = Except.ok { r with current_state := s' } := by
  rcases r with ⟨i, p, d, st, e⟩
  cases st <;>
    simp_all [specSuccessor, specStateOrder, nextInOrder,
              Run.update_state, RunState.next_state]

/-- Witness for C4 at a concrete input: advancing an `Uploading` run
yields `Done`. -/
theorem update_state_follows_spec_table_witness :
    ∃ s', specSuccessor RunState.uploading = some s'
      ∧ Run.update_state
          { id := 2, profile_id := 3, run_date := 4,
            current_state := RunState.uploading, error := none }
        = Except.ok
          { id := 2, profile_id := 3, run_date := 4,
            current_state := s', error := none } :=
  update_state_follows_spec_table
    { id := 2, profile_id := 3, run_date := 4,
      current_state := RunState.uploading, error := none }
    (by decide) (by decide)

/-! ## Theorems about the authentication gateway -/

theorem string_mk_data (s : String) : String.mk s.data = s := by
  cases s
  rfl

theorem string_data_append (a b : String) : (a ++ b).data = a.data ++ b.data := by
  cases a
  cases b
  rfl

theorem stripPfxGo_append (p r : List Char) : stripPfxGo p (p ++ r) = some r := by
  induction p with
  | nil => rfl
  | cons c cs ih => simp [stripPfxGo, ih]

theorem stripPfx_append (p r : String) : stripPfx p (p ++ r) = some r := by
  unfold stripPfx
  rw [string_data_append, stripPfxGo_append]
  simp [string_mk_data]

theorem stripPfx_basic_bearer (r : String) :
    stripPfx "Basic " ("Bearer " ++ r) = none := by
  unfold stripPfx
  rw [string_data_append]
  rfl

/-- C5: issuing a token through the Basic-branch issue (TTL
`AUTH_EXPIRATION_HOURS` = 3 hours) and verifying it with the same clock
value succeeds — for any clock value for which the issue itself succeeds,
i.e. whose expiry neither overflows the timestamp range nor is negative —
and yields claims whose email is the issued identity's email and whose
expiry equals the issue time plus the TTL. -/
theorem issue_verify_roundtrip (secret email : String) (now : Int)
    (h0 : 0 ≤ now) (h1 : now + authTtlSecs ≤ tsMax) :
    ∃ t, issueJwt secret email now = Except.ok t
      ∧ verifyJwt secret t now = some t.claims
      ∧ t.claims.email = email
      ∧ (t.claims.exp : Int) = now + authTtlSecs := by
  have httl : authTtlSecs = 10800 := rfl
  have hlo : tsMin ≤ now + authTtlSecs := by
    have h2 : tsMin ≤ (0 : Int) := by norm_num [tsMin]
    omega
  have hadd : checkedAddTs now authTtlSecs = some (now + authTtlSecs) := by
    simp [checkedAddTs, hlo, h1]
  have hnneg : ¬ (now + authTtlSecs < 0) := by omega
  refine ⟨{ claims := { email := email, exp := (now + authTtlSecs).toNat }
            mac := macHash secret email (now + authTtlSecs).toNat },
          ?_, ?_, rfl, ?_⟩
  · simp [issueJwt, hadd, hnneg]
  · have hcond : macHash secret email (now + authTtlSecs).toNat
        = macHash secret email (now + authTtlSecs).toNat
        ∧ now < (((now + authTtlSecs).toNat : Nat) : Int) :=
      ⟨rfl, by omega⟩
    unfold verifyJwt
    exact if_pos hcond
  · show (((now + authTtlSecs).toNat : Nat) : Int) = now + authTtlSecs
    omega

/-- Witness for C5 at a concrete input: issue at clock value 0 for the
identity `a@b` and verify at the same clock value. -/
theorem issue_verify_roundtrip_witness :
    ∃ t, issueJwt "s" "a@b" 0 = Except.ok t
      ∧ verifyJwt "s" t 0 = some t.claims
      ∧ t.claims.email = "a@b"
      ∧ (t.claims.exp : Int) = 0 + authTtlSecs :=
  issue_verify_roundtrip "s" "a@b" 0 (by decide)
    (by norm_num [authTtlSecs, AUTH_EXPIRATION_HOURS, tsMax])

/-- C6: a token whose claims are already expired (`expiresAt ≤ now`) is
rejected by the Bearer branch — `try_authenticate_bearer` yields the
unauthenticated result — regardless of whether its signature is valid (no
hypothesis relates the token's MAC to the secret). -/
theorem bearer_expired_unauthenticated (token : String) (t : Jwt)
    (adminEmail secret : String) (now : Int)
    (hp : jwtParse token = some t) (he : (t.claims.exp : Int) ≤ now) :
    tryAuthenticateBearer token adminEmail secret now
      = Except.ok OptionalAuth.unauthenticated := by
  have hv : verifyJwt secret t now = none := by
    unfold verifyJwt
    rw [if_neg]
    rintro ⟨-, hlt⟩
    omega
  simp [tryAuthenticateBearer, hp, hv]

/-- Witness for C6 at a concrete input: a structurally valid token with a
forged MAC and expiry 3 is rejected at clock value 3. -/
theorem bearer_expired_unauthenticated_witness :
    jwtParse (jwtEncode { claims := { email := "a", exp := 3 }, mac := 0 })
      = some { claims := { email := "a", exp := 3 }, mac := 0 }
    ∧ tryAuthenticateBearer
        (jwtEncode { claims := { email := "a", exp := 3 }, mac := 0 }) "a" "s" 3
      = Except.ok OptionalAuth.unauthenticated :=
  ⟨by decide,
   bearer_expired_unauthenticated
     (jwtEncode { claims := { email := "a", exp := 3 }, mac := 0 })
     { claims := { email := "a", exp := 3 }, mac := 0 }
     "a" "s" 3 (by decide) (by decide)⟩

/-- C7 counterexample: the claim says the cookie is consulted only when
the `Authorization` header is absent, and that a request whose header
carries neither a `Basic` nor a `Bearer` prefix is answered
`Unauthenticated`.  The code instead falls through to the cookie whenever
neither prefix matches: with the unrecognized header `Digest x` and a
valid bearer cookie, `try_authenticate` authenticates. -/
theorem cookie_used_despite_present_header :
    tryAuthenticate (some "Digest x")
        (some (jwtEncode
          { claims := { email := "a@b", exp := 99 }
            mac := macHash "s" "a@b" 99 }))
        "a@b" "pw" "s" 1
      ≠ Except.ok OptionalAuth.unauthenticated := by
  decide

/-- C7 amended: credential extraction tries the `Authorization` header
first — a `"Basic "` prefix dispatches its remainder to the Basic branch
and a `"Bearer "` prefix its remainder to the Bearer branch; whenever the
header yields neither prefix (absent or any other value), a present
cookie value dispatches to the Bearer branch; only when additionally no
cookie is present does the gateway return the unauthenticated result. -/
theorem auth_dispatch_header_then_cookie (header cookie : Option String)
    (adminEmail adminPassword secret : String) (now : Int) :
    (∀ r, header = some ("Basic " ++ r) →
      tryAuthenticate header cookie adminEmail adminPassword secret now
        = tryAuthenticateBasic r adminEmail adminPassword secret now)
    ∧ (∀ r, header = some ("Bearer " ++ r) →
      tryAuthenticate header cookie adminEmail adminPassword secret now
        = tryAuthenticateBearer r adminEmail secret now)
    ∧ ((header = none
        ∨ ∃ h, header = some h ∧ stripPfx "Basic " h = none
            ∧ stripPfx "Bearer " h = none) →
      ∀ c, cookie = some c →
        tryAuthenticate header cookie adminEmail adminPassword secret now
          = tryAuthenticateBearer c adminEmail secret now)
    ∧ ((header = none
        ∨ ∃ h, header = some h ∧ stripPfx "Basic " h = none
            ∧ stripPfx "Bearer " h = none) →
      cookie = none →
        tryAuthenticate header cookie adminEmail adminPassword secret now
          = Except.ok OptionalAuth.unauthenticated) := by
  refine ⟨?_, ?_, ?_, ?_⟩
  · rintro r rfl
    simp [tryAuthenticate, stripPfx_append]
  · rintro r rfl
    simp [tryAuthenticate, stripPfx_append, stripPfx_basic_bearer]
  · rintro (rfl | ⟨h, rfl, hB, hBr⟩) c rfl
    · rfl
    · simp [tryAuthenticate, hB, hBr]
  · rintro (rfl | ⟨h, rfl, hB, hBr⟩) rfl
    · rfl
    · simp [tryAuthenticate, hB, hBr]

/-- Witness for the amended C7 at concrete inputs: a `Basic` header
dispatches to the Basic branch, and an unrecognized `Digest` header with
a present cookie dispatches the cookie value to the Bearer branch. -/
theorem auth_dispatch_header_then_cookie_witness :
    tryAuthenticate (some ("Basic " ++ "QQ==")) none "a" "p" "s" 0
      = tryAuthenticateBasic "QQ==" "a" "p" "s" 0
    ∧ tryAuthenticate (some "Digest y") (some "tok") "a" "p" "s" 0
      = tryAuthenticateBearer "tok" "a" "s" 0 :=
  ⟨(auth_dispatch_header_then_cookie (some ("Basic " ++ "QQ==")) none
      "a" "p" "s" 0).1 "QQ==" rfl,
   (auth_dispatch_header_then_cookie (some "Digest y") (some "tok")
      "a" "p" "s" 0).2.2.1
     (Or.inr ⟨"Digest y", rfl, by decide, by decide⟩) "tok" rfl⟩

/-- C8: a Basic-branch credential whose remainder fails base64 decoding,
fails UTF-8 decoding, or contains no colon separator makes
`try_authenticate_basic` return `Ok` with the unauthenticated result —
never an error — so ill-formed credentials are indistinguishable from
absent credentials. -/
theorem malformed_basic_unauthenticated
    (cred adminEmail adminPassword secret : String) (now : Int)
    (h : base64Decode cred = none
      ∨ (∃ bs, base64Decode cred = some bs ∧ utf8Decode bs = none)
      ∨ (∃ bs s, base64Decode cred = some bs ∧ utf8Decode bs = some s
          ∧ splitOnce s ':' = none)) :
    tryAuthenticateBasic cred adminEmail adminPassword secret now
      = Except.ok OptionalAuth.unauthenticated := by
  rcases h with h | ⟨bs, h1, h2⟩ | ⟨bs, s, h1, h2, h3⟩
  · simp [tryAuthenticateBasic, h]
  · simp [tryAuthenticateBasic, h1, h2]
  · simp [tryAuthenticateBasic, h1, h2, h3]

/-- Witness for C8 at the spec's concrete input: the malformed header
remainder `not-base64!!` yields the unauthenticated result. -/
theorem malformed_basic_unauthenticated_witness :
    tryAuthenticateBasic "not-base64!!" "a" "p" "s" 0
      = Except.ok OptionalAuth.unauthenticated :=
  malformed_basic_unauthenticated "not-base64!!" "a" "p" "s" 0
    (Or.inl (by decide))

/-- C9: the Basic credential comparison succeeds exactly when the
submitted email and password both equal the configured admin values —
string equality here is character-for-character (hence, by injectivity of
UTF-8, byte-for-byte) with no case folding or trimming, so in particular
any single-character mutation of either field is rejected. -/
theorem verify_basic_exact_equality
    (email password adminEmail adminPassword : String) :
    verifyBasic email password adminEmail adminPassword = true
      ↔ (email = adminEmail ∧ password = adminPassword) := by
  simp [verifyBasic]

/-- Helper for C10: every character the alphanumeric alphabet lookup can
produce is alphanumeric (the default is itself alphanumeric). -/
theorem alphanumAlphabet_getD_isAlphanum (n : Nat) :
    (alphanumAlphabet.getD n 'A').isAlphanum = true := by
  have hall : alphanumAlphabet.all Char.isAlphanum = true := by decide
  rw [List.all_eq_true] at hall
  by_cases h : n < alphanumAlphabet.length
  · rw [List.getD_eq_getElem _ _ h]
    exact hall _ (List.getElem_mem h)
  · rw [List.getD_eq_default _ _ (Nat.le_of_not_lt h)]
    decide

/-- Helper for C10: a sampled secret has 32 characters, all
alphanumeric. -/
theorem sampleAlphanumeric_spec (rng : Nat → Nat) :
    (sampleAlphanumeric rng 32).length = 32
    ∧ ∀ c ∈ (sampleAlphanumeric rng 32).data, c.isAlphanum = true := by
  have hdata : (sampleAlphanumeric rng 32).data
      = (List.range 32).map (fun i => alphanumAlphabet.getD (rng i % 62) 'A') := rfl
  constructor
  · show (sampleAlphanumeric rng 32).data.length = 32
    rw [hdata, List.length_map, List.length_range]
  · intro c hc
    rw [hdata] at hc
    obtain ⟨i, -, hce⟩ := List.mem_map.mp hc
    subst hce
    exact alphanumAlphabet_getD_isAlphanum (rng i % 62)

/-- C10: `get_jwt_secret` requests fresh entropy before consulting the
memoized cache, so when the entropy source fails the call fails even if
the secret was already generated (the cache is left as it was); every
successful call returns the single memoized secret — the cached value
when one exists, otherwise a freshly sampled one that becomes the cache —
and that secret is a 32-character alphanumeric string. -/
theorem jwt_secret_entropy_then_cache :
    (∀ cache, getJwtSecret none cache
      = (Except.error OsRngError.entropyFailure, cache))
    ∧ (∀ (rng : Nat → Nat) (cache : Option String),
        (cache = none ∨ ∃ rng0, cache = some (sampleAlphanumeric rng0 32)) →
        ∃ s, getJwtSecret (some rng) cache = (Except.ok s, some s)
          ∧ s.length = 32
          ∧ (∀ c ∈ s.data, c.isAlphanum = true)
          ∧ (∀ c0, cache = some c0 → s = c0)) := by
  constructor
  · intro cache
    rfl
  · intro rng cache hc
    rcases hc with rfl | ⟨rng0, rfl⟩
    · exact ⟨sampleAlphanumeric rng 32, rfl, (sampleAlphanumeric_spec rng).1,
        (sampleAlphanumeric_spec rng).2, by simp⟩
    · refine ⟨sampleAlphanumeric rng0 32, rfl, (sampleAlphanumeric_spec rng0).1,
        (sampleAlphanumeric_spec rng0).2, ?_⟩
      intro c0 hc0
      exact (Option.some.inj hc0).symm ▸ rfl

/-- Witness for C10 at a concrete input: a successful call with an empty
cache produces a well-formed secret and memoizes it. -/
theorem jwt_secret_entropy_then_cache_witness :
    ∃ s, getJwtSecret (some (fun i => i * 7)) none = (Except.ok s, some s)
      ∧ s.length = 32
      ∧ (∀ c ∈ s.data, c.isAlphanum = true)
      ∧ (∀ c0, (none : Option String) = some c0 → s = c0) :=
  jwt_secret_entropy_then_cache.2 (fun i => i * 7) none (Or.inl rfl)

end Reddyt
